import Mathlib

/-!
# Dark Matter Detection — verification of the detector framework

Shallow embedding of the Python sources `phantom_loops.py`, `zombie_orbits.py`,
`evidence_voids.py` and `dark_matter_scanner.py`.

Modelling conventions:
* A Python syntax tree (the relevant fragment: the node kinds the detectors
  inspect or traverse through) is the mutual inductive `Expr` / `Stmt` /
  `Handler` below.  Python expressions cannot contain statements, and none of
  the detectors defines an expression-level visitor hook except
  `EvidenceVoidDetector.visit_Call`; consequently the phantom and zombie
  traversals are folds over statements (visiting an expression subtree leaves
  their state unchanged), while the evidence traversal also descends into
  expressions.
* `ast.parse` raising `SyntaxError` is modelled by `SourceCode.parsed = none`;
  `source_code.split('\n')` is modelled by the `lines` field.
* Machine floats only ever hold sums of the weights 3.0 / 2.0 / 1.0 capped at
  10.0, which are exact in IEEE double; they are modelled by `ℚ`.
* Each `ast.NodeVisitor` appends findings to a member list while traversing in
  pre-order; the embedding renders each visitor as a function returning the
  list of findings it appends, concatenated in the identical pre-order.
-/

namespace DarkMatter

/-- A Python literal constant (`ast.Constant.value`).  `boolC true` is the
literal `True`; `intC 1` is the literal `1`.  The identity test
`test.value is True` holds exactly for `boolC true`. -/
inductive Const where
  | boolC (b : Bool)
  | intC (n : Int)
  | strC (s : String)
  | noneC
deriving DecidableEq

/-- Expression context of an `ast.Attribute` node (`ast.Load` / `ast.Store`). -/
inductive ECtx where
  | load
  | store
deriving DecidableEq

mutual
/-- The expression fragment of the Python AST that the detectors inspect or
traverse through: constants, names, attribute access, calls, binary ops. -/
inductive Expr where
  | constant (value : Const) (lineno : Nat)
  | name (id : String) (lineno : Nat)
  | attribute (value : Expr) (attr : String) (ctx : ECtx) (lineno : Nat)
  | call (func : Expr) (args : List Expr) (lineno : Nat)
  | binOp (left : Expr) (right : Expr) (lineno : Nat)

/-- The statement fragment of the Python AST that the detectors inspect or
traverse through. -/
inductive Stmt where
  | functionDef (fname : String) (body : List Stmt) (lineno : Nat)
  | returnStmt (value : Option Expr) (lineno : Nat)
  | assign (targets : List Expr) (value : Expr) (lineno : Nat)
  | whileStmt (test : Expr) (body : List Stmt) (orelse : List Stmt) (lineno : Nat)
  | forStmt (target : Expr) (iter : Expr) (body : List Stmt) (orelse : List Stmt) (lineno : Nat)
  | tryStmt (body : List Stmt) (handlers : List Handler) (orelse : List Stmt)
      (finalbody : List Stmt) (lineno : Nat)
  | exprStmt (value : Expr) (lineno : Nat)
  | passStmt (lineno : Nat)
  | breakStmt (lineno : Nat)
  | continueStmt (lineno : Nat)
  | raiseStmt (exc : Option Expr) (lineno : Nat)

/-- An `ast.ExceptHandler`: optional exception type, body, line number. -/
inductive Handler where
  | mk (type : Option Expr) (body : List Stmt) (lineno : Nat)
end

/-- Embeds `handler.type` -/
def Handler.type : Handler → Option Expr
  | .mk t _ _ => t

/-- Embeds `handler.body` -/
def Handler.body : Handler → List Stmt
  | .mk _ b _ => b

/-- Embeds `handler.lineno` -/
def Handler.lineno : Handler → Nat
  | .mk _ _ l => l

/-- An `ast.Module` (the root produced by `ast.parse`). -/
structure Module where
  body : List Stmt

/-- One scanned source text: the outcome of `ast.parse(source_code)` (`none`
models `SyntaxError`) together with `source_code.split('\n')`. -/
structure SourceCode where
  parsed : Option Module
  lines : List String

/-- Embeds `_get_code_snippet` — identical in `PhantomLoopDetector`,
`ZombieOrbitDetector` and `EvidenceVoidDetector`:
`start = max(0, line - 2)`, `end = min(len(self.source_lines), line + 2)`,
`"\n".join(self.source_lines[start:end])`.  `Nat` subtraction is truncated,
which is exactly `max(0, line - 2)`; a Python slice `l[start:end]` is
`(l.drop start).take (end - start)`. -/
def getCodeSnippet (sourceLines : List String) (line : Nat) : String :=
  let start := line - 2
  let stop := min sourceLines.length (line + 2)
  String.intercalate "\n" ((sourceLines.drop start).take (stop - start))

/-! ## phantom_loops.py -/

/-- Embeds `PhantomType` enum (`.val` is the Python enum `.value`). -/
inductive PhantomType where
  | whileTrueBreak
  | whileTrueReturn
  | whileTrueRaise
  | infiniteIteratorExit
deriving DecidableEq

/-- The `.value` string of a `PhantomType` member. -/
def PhantomType.val : PhantomType → String
  | .whileTrueBreak => "while_true_break"
  | .whileTrueReturn => "while_true_return"
  | .whileTrueRaise => "while_true_raise"
  | .infiniteIteratorExit => "infinite_iterator_exit"

/-- The `PhantomLoop` dataclass. -/
structure PhantomLoop where
  line : Nat
  phantom_type : PhantomType
  code_snippet : String
  severity : String
  description : String
  exit_mechanism : String
  context : String
deriving DecidableEq

/-- Embeds `PhantomLoopDetector._is_infinite_condition`:
`isinstance(test, ast.Constant) and test.value is True`.  The literal `1`
(`intC 1`) is a `Constant` whose value `is True` is false. -/
def isInfiniteCondition : Expr → Bool
  | .constant (.boolC true) _ => true
  | _ => false

/-- Embeds `PhantomLoopDetector._check_immediate_exit`: inspects only the very first
statement of the loop body. -/
def checkImmediateExit : List Stmt → Option (PhantomType × String)
  | [] => none
  | first :: _ =>
    match first with
    | .breakStmt _ => some (.whileTrueBreak, "breaks")
    | .returnStmt _ _ => some (.whileTrueReturn, "returns")
    | .raiseStmt _ _ => some (.whileTrueRaise, "raises")
    | _ => none

/-- Embeds `PhantomLoopDetector._calculate_severity`. -/
def phantomSeverity (phantomType : PhantomType) : String :=
  if phantomType = .whileTrueBreak then "HIGH" else "MEDIUM"

mutual
/-- Embeds `PhantomLoopDetector.visit(stmt)`: the findings appended while visiting one
statement.  `visit_FunctionDef` swaps the context to `function:<name>` around
the recursion; `visit_While` appends its finding (when the test is the literal
`True` and the first body statement is an immediate exit) and then
`generic_visit` recurses into the children; every other statement kind has no
visitor hook, so `generic_visit` just recurses into its statement children. -/
def phantomVisitStmt (sourceLines : List String) (ctx : String) : Stmt → List PhantomLoop
  | .functionDef fname body _ =>
      phantomVisitStmts sourceLines ("function:" ++ fname) body
  | .whileStmt test body orelse ln =>
      (if isInfiniteCondition test then
        match checkImmediateExit body with
        | some (pt, mech) =>
            [{ line := ln
               phantom_type := pt
               code_snippet := getCodeSnippet sourceLines ln
               severity := phantomSeverity pt
               description := "Loop claims infinity but " ++ mech ++ " immediately"
               exit_mechanism := mech
               context := ctx }]
        | none => []
      else []) ++
      (phantomVisitStmts sourceLines ctx body ++ phantomVisitStmts sourceLines ctx orelse)
  | .forStmt _ _ body orelse _ =>
      phantomVisitStmts sourceLines ctx body ++ phantomVisitStmts sourceLines ctx orelse
  | .tryStmt body handlers orelse finalbody _ =>
      phantomVisitStmts sourceLines ctx body ++
      phantomVisitHandlers sourceLines ctx handlers ++
      phantomVisitStmts sourceLines ctx orelse ++
      phantomVisitStmts sourceLines ctx finalbody
  | .returnStmt _ _ => []
  | .assign _ _ _ => []
  | .exprStmt _ _ => []
  | .passStmt _ => []
  | .breakStmt _ => []
  | .continueStmt _ => []
  | .raiseStmt _ _ => []

/-- Visit a statement list in order, concatenating the appended findings. -/
def phantomVisitStmts (sourceLines : List String) (ctx : String) : List Stmt → List PhantomLoop
  | [] => []
  | s :: rest => phantomVisitStmt sourceLines ctx s ++ phantomVisitStmts sourceLines ctx rest

/-- Visit the handlers of a `try` statement (each handler's body in order). -/
def phantomVisitHandlers (sourceLines : List String) (ctx : String) :
    List Handler → List PhantomLoop
  | [] => []
  | .mk _ body _ :: rest =>
      phantomVisitStmts sourceLines ctx body ++ phantomVisitHandlers sourceLines ctx rest
end

/-- Embeds `detect_phantom_loops(source_code)`: `[]` on `SyntaxError`, otherwise the
detector run over the parsed module with context `"module"`. -/
def detect_phantom_loops (src : SourceCode) : List PhantomLoop :=
  match src.parsed with
  | some m => phantomVisitStmts src.lines "module" m.body
  | none => []

/-- The shared severity weight table `{"HIGH": 3.0, "MEDIUM": 2.0, "LOW": 1.0}`
read through `dict.get(severity, 1.0)` (default weight 1.0). -/
def severityWeight (s : String) : ℚ :=
  if s = "HIGH" then 3 else if s = "MEDIUM" then 2 else if s = "LOW" then 1 else 1

/-- Embeds `calculate_phantom_score`. -/
def calculate_phantom_score (phantoms : List PhantomLoop) : ℚ :=
  if phantoms.isEmpty then 0
  else min 10 ((phantoms.map fun p => severityWeight p.severity).sum)

/-! ## zombie_orbits.py -/

/-- Embeds `ZombieType` enum. -/
inductive ZombieType where
  | discardedCall
  | unusedComputation
  | emptyLoop
  | noReturnFunction
  | writeOnlyVariable
deriving DecidableEq

/-- The `.value` string of a `ZombieType` member. -/
def ZombieType.val : ZombieType → String
  | .discardedCall => "discarded_call"
  | .unusedComputation => "unused_computation"
  | .emptyLoop => "empty_loop"
  | .noReturnFunction => "no_return_function"
  | .writeOnlyVariable => "write_only_variable"

/-- The `ZombieOrbit` dataclass. -/
structure ZombieOrbit where
  line : Nat
  zombie_type : ZombieType
  code_snippet : String
  severity : String
  description : String
  context : String
deriving DecidableEq

/-- Embeds `_get_call_name(call)` (identical in `ZombieOrbitDetector` and
`EvidenceVoidDetector`), applied to `call.func`: a `Name` gives its `id`, an
`Attribute` gives its `attr`, anything else gives `None`. -/
def getCallName (func : Expr) : Option String :=
  match func with
  | .name id _ => some id
  | .attribute _ attr _ _ => some attr
  | _ => none

/-- Embeds `ZombieOrbitDetector._is_side_effect_function`: membership of
`name.lower()` in the fixed side-effect set. -/
def isSideEffectFunction (n : String) : Bool :=
  ["print", "log", "write", "send", "publish",
   "append", "update", "delete", "remove", "save",
   "close", "flush", "commit", "rollback"].contains n.toLower

/-- Embeds `ZombieOrbitDetector._is_empty_loop`: empty body, or every statement is
`pass` or `continue`. -/
def isEmptyLoop (body : List Stmt) : Bool :=
  if body.isEmpty then true
  else body.all fun s =>
    match s with
    | .passStmt _ => true
    | .continueStmt _ => true
    | _ => false

mutual
/-- Embeds `ast.walk` search used by `_has_meaningful_return`: is there a `Return`
node with a non-`None` value anywhere below this statement?  (`ast.walk` does
not respect scope, so nested function bodies are searched too.) -/
def stmtHasReturnValue : Stmt → Bool
  | .returnStmt (some _) _ => true
  | .returnStmt none _ => false
  | .functionDef _ body _ => stmtsHaveReturnValue body
  | .whileStmt _ body orelse _ => stmtsHaveReturnValue body || stmtsHaveReturnValue orelse
  | .forStmt _ _ body orelse _ => stmtsHaveReturnValue body || stmtsHaveReturnValue orelse
  | .tryStmt body handlers orelse finalbody _ =>
      stmtsHaveReturnValue body || handlersHaveReturnValue handlers ||
      stmtsHaveReturnValue orelse || stmtsHaveReturnValue finalbody
  | .assign _ _ _ => false
  | .exprStmt _ _ => false
  | .passStmt _ => false
  | .breakStmt _ => false
  | .continueStmt _ => false
  | .raiseStmt _ _ => false

/-- Extends `stmtHasReturnValue` over a statement list. -/
def stmtsHaveReturnValue : List Stmt → Bool
  | [] => false
  | s :: rest => stmtHasReturnValue s || stmtsHaveReturnValue rest

/-- Extends `stmtHasReturnValue` over the bodies of a handler list. -/
def handlersHaveReturnValue : List Handler → Bool
  | [] => false
  | .mk _ body _ :: rest => stmtsHaveReturnValue body || handlersHaveReturnValue rest
end

/-- Embeds `ZombieOrbitDetector._has_meaningful_return(func_node)`, walking the
function's body. -/
def hasMeaningfulReturn (body : List Stmt) : Bool :=
  stmtsHaveReturnValue body

mutual
/-- Embeds `ast.walk` search used by `_has_side_effects`: a `Call` to one of
`('print', 'log', 'write', 'append', 'update', 'delete')`, or an `Attribute`
node in `Store` context, anywhere below this expression. -/
def exprHasSideEffect : Expr → Bool
  | .call f args _ =>
      (match getCallName f with
       | some n => ["print", "log", "write", "append", "update", "delete"].contains n
       | none => false) || exprHasSideEffect f || exprsHaveSideEffect args
  | .attribute v _ ctx _ => (ctx = .store) || exprHasSideEffect v
  | .binOp l r _ => exprHasSideEffect l || exprHasSideEffect r
  | .constant _ _ => false
  | .name _ _ => false

/-- Extends `exprHasSideEffect` over an expression list. -/
def exprsHaveSideEffect : List Expr → Bool
  | [] => false
  | e :: rest => exprHasSideEffect e || exprsHaveSideEffect rest

/-- The `ast.walk` side-effect search over one statement. -/
def stmtHasSideEffect : Stmt → Bool
  | .functionDef _ body _ => stmtsHaveSideEffect body
  | .returnStmt v _ =>
      (match v with
       | some e => exprHasSideEffect e
       | none => false)
  | .assign targets value _ => exprsHaveSideEffect targets || exprHasSideEffect value
  | .whileStmt test body orelse _ =>
      exprHasSideEffect test || stmtsHaveSideEffect body || stmtsHaveSideEffect orelse
  | .forStmt target iter body orelse _ =>
      exprHasSideEffect target || exprHasSideEffect iter ||
      stmtsHaveSideEffect body || stmtsHaveSideEffect orelse
  | .tryStmt body handlers orelse finalbody _ =>
      stmtsHaveSideEffect body || handlersHaveSideEffect handlers ||
      stmtsHaveSideEffect orelse || stmtsHaveSideEffect finalbody
  | .exprStmt value _ => exprHasSideEffect value
  | .passStmt _ => false
  | .breakStmt _ => false
  | .continueStmt _ => false
  | .raiseStmt v _ =>
      (match v with
       | some e => exprHasSideEffect e
       | none => false)

/-- Extends `stmtHasSideEffect` over a statement list. -/
def stmtsHaveSideEffect : List Stmt → Bool
  | [] => false
  | s :: rest => stmtHasSideEffect s || stmtsHaveSideEffect rest

/-- The side-effect search over a handler list (type expression and body). -/
def handlersHaveSideEffect : List Handler → Bool
  | [] => false
  | .mk t body _ :: rest =>
      (match t with
       | some e => exprHasSideEffect e
       | none => false) || stmtsHaveSideEffect body || handlersHaveSideEffect rest
end

/-- Embeds `ZombieOrbitDetector._has_side_effects(func_node)`, walking the function's
body. -/
def hasSideEffects (body : List Stmt) : Bool :=
  stmtsHaveSideEffect body

mutual
/-- Embeds `ZombieOrbitDetector.visit(stmt)`: findings appended while visiting one
statement, in the source's pre-order.  `visit_FunctionDef` swaps the context
to `function:<name>` *before* the no-return/no-side-effect check, so the
finding carries the new context; `visit_Expr` (the expression-statement hook)
checks the discarded-call and discarded-binary-computation patterns;
`visit_For` / `visit_While` check `_is_empty_loop`; other statements only
recurse into statement children via `generic_visit`. -/
def zombieVisitStmt (sourceLines : List String) (ctx : String) : Stmt → List ZombieOrbit
  | .functionDef fname body ln =>
      (if !hasMeaningfulReturn body && !hasSideEffects body then
        [{ line := ln
           zombie_type := .noReturnFunction
           code_snippet := getCodeSnippet sourceLines ln
           severity := "MEDIUM"
           description := "Function \x27" ++ fname ++
             "\x27 runs but produces no output or side effects"
           context := "function:" ++ fname }]
      else []) ++
      zombieVisitStmts sourceLines ("function:" ++ fname) body
  | .exprStmt value ln =>
      (match value with
       | .call f _ _ =>
          (match getCallName f with
           | some n =>
              if !isSideEffectFunction n then
                [{ line := ln
                   zombie_type := .discardedCall
                   code_snippet := getCodeSnippet sourceLines ln
                   severity := "HIGH"
                   description := "Function call \x27" ++ n ++ "\x27() result discarded"
                   context := ctx }]
              else []
           | none => [])
       | _ => []) ++
      (match value with
       | .binOp _ _ _ =>
          [{ line := ln
             zombie_type := .unusedComputation
             code_snippet := getCodeSnippet sourceLines ln
             severity := "MEDIUM"
             description := "Computation result discarded (not assigned or returned)"
             context := ctx }]
       | _ => [])
  | .forStmt _ _ body orelse ln =>
      (if isEmptyLoop body then
        [{ line := ln
           zombie_type := .emptyLoop
           code_snippet := getCodeSnippet sourceLines ln
           severity := "HIGH"
           description := "Loop executes but body is empty or no-op"
           context := ctx }]
      else []) ++
      (zombieVisitStmts sourceLines ctx body ++ zombieVisitStmts sourceLines ctx orelse)
  | .whileStmt _ body orelse ln =>
      (if isEmptyLoop body then
        [{ line := ln
           zombie_type := .emptyLoop
           code_snippet := getCodeSnippet sourceLines ln
           severity := "HIGH"
           description := "Loop executes but body is empty or no-op"
           context := ctx }]
      else []) ++
      (zombieVisitStmts sourceLines ctx body ++ zombieVisitStmts sourceLines ctx orelse)
  | .tryStmt body handlers orelse finalbody _ =>
      zombieVisitStmts sourceLines ctx body ++
      zombieVisitHandlers sourceLines ctx handlers ++
      zombieVisitStmts sourceLines ctx orelse ++
      zombieVisitStmts sourceLines ctx finalbody
  | .returnStmt _ _ => []
  | .assign _ _ _ => []
  | .passStmt _ => []
  | .breakStmt _ => []
  | .continueStmt _ => []
  | .raiseStmt _ _ => []

/-- Visit a statement list in order, concatenating the appended findings. -/
def zombieVisitStmts (sourceLines : List String) (ctx : String) : List Stmt → List ZombieOrbit
  | [] => []
  | s :: rest => zombieVisitStmt sourceLines ctx s ++ zombieVisitStmts sourceLines ctx rest

/-- Visit the handlers of a `try` statement. -/
def zombieVisitHandlers (sourceLines : List String) (ctx : String) :
    List Handler → List ZombieOrbit
  | [] => []
  | .mk _ body _ :: rest =>
      zombieVisitStmts sourceLines ctx body ++ zombieVisitHandlers sourceLines ctx rest
end

/-- Embeds `detect_zombie_orbits(source_code)`: `[]` on `SyntaxError`. -/
def detect_zombie_orbits (src : SourceCode) : List ZombieOrbit :=
  match src.parsed with
  | some m => zombieVisitStmts src.lines "module" m.body
  | none => []

/-- Embeds `calculate_zombie_score`. -/
def calculate_zombie_score (zombies : List ZombieOrbit) : ℚ :=
  if zombies.isEmpty then 0
  else min 10 ((zombies.map fun z => severityWeight z.severity).sum)

/-! ## evidence_voids.py -/

/-- Embeds `VoidType` enum. -/
inductive VoidType where
  | swallowedException
  | bareExcept
  | ignoredReturn
  | noLoggingInExcept
  | silentFailure
deriving DecidableEq

/-- The `.value` string of a `VoidType` member. -/
def VoidType.val : VoidType → String
  | .swallowedException => "swallowed_exception"
  | .bareExcept => "bare_except"
  | .ignoredReturn => "ignored_return"
  | .noLoggingInExcept => "no_logging_in_except"
  | .silentFailure => "silent_failure"

/-- The `EvidenceVoid` dataclass. -/
structure EvidenceVoid where
  line : Nat
  void_type : VoidType
  code_snippet : String
  severity : String
  description : String
  context : String
deriving DecidableEq

/-- Embeds `EvidenceVoidDetector._is_swallowed`: true when the handler body is empty,
or is exactly one `pass`, or exactly one `continue` / `break` statement.  A
body of two or more statements is never swallowed (`len(body) == 1` in both
non-empty cases). -/
def isSwallowed : List Stmt → Bool
  | [] => true
  | [.passStmt _] => true
  | [.continueStmt _] => true
  | [.breakStmt _] => true
  | _ => false

/-- The logging-name allow-list of `_has_logging`:
`('log', 'debug', 'info', 'warning', 'error', 'critical', 'exception', 'print')`. -/
def loggingNames : List String :=
  ["log", "debug", "info", "warning", "error", "critical", "exception", "print"]

mutual
/-- Embeds `ast.walk` search used by `EvidenceVoidDetector._has_logging`: a `Call`
whose extracted name is in `loggingNames`, anywhere below this expression. -/
def exprHasLogging : Expr → Bool
  | .call f args _ =>
      (match getCallName f with
       | some n => loggingNames.contains n
       | none => false) || exprHasLogging f || exprsHaveLogging args
  | .attribute v _ _ _ => exprHasLogging v
  | .binOp l r _ => exprHasLogging l || exprHasLogging r
  | .constant _ _ => false
  | .name _ _ => false

/-- Extends `exprHasLogging` over an expression list. -/
def exprsHaveLogging : List Expr → Bool
  | [] => false
  | e :: rest => exprHasLogging e || exprsHaveLogging rest

/-- The logging search over one statement (all descendant nodes). -/
def stmtHasLogging : Stmt → Bool
  | .functionDef _ body _ => stmtsHaveLogging body
  | .returnStmt v _ =>
      (match v with
       | some e => exprHasLogging e
       | none => false)
  | .assign targets value _ => exprsHaveLogging targets || exprHasLogging value
  | .whileStmt test body orelse _ =>
      exprHasLogging test || stmtsHaveLogging body || stmtsHaveLogging orelse
  | .forStmt target iter body orelse _ =>
      exprHasLogging target || exprHasLogging iter ||
      stmtsHaveLogging body || stmtsHaveLogging orelse
  | .tryStmt body handlers orelse finalbody _ =>
      stmtsHaveLogging body || handlersHaveLogging handlers ||
      stmtsHaveLogging orelse || stmtsHaveLogging finalbody
  | .exprStmt value _ => exprHasLogging value
  | .passStmt _ => false
  | .breakStmt _ => false
  | .continueStmt _ => false
  | .raiseStmt v _ =>
      (match v with
       | some e => exprHasLogging e
       | none => false)

/-- Extends `stmtHasLogging` over a statement list. -/
def stmtsHaveLogging : List Stmt → Bool
  | [] => false
  | s :: rest => stmtHasLogging s || stmtsHaveLogging rest

/-- The logging search over a handler list. -/
def handlersHaveLogging : List Handler → Bool
  | [] => false
  | .mk t body _ :: rest =>
      (match t with
       | some e => exprHasLogging e
       | none => false) || stmtsHaveLogging body || handlersHaveLogging rest
end

/-- Embeds `EvidenceVoidDetector._has_logging(body)`: walks `ast.Module(body=body)`. -/
def hasLogging (body : List Stmt) : Bool :=
  stmtsHaveLogging body

/-- Embeds `EvidenceVoidDetector._is_error_checked(call_node)`: the source returns
`False` unconditionally ("This is a simplified check [...] For now, assume
we'll catch this at the Try level"). -/
def isErrorChecked (_callNode : Expr) : Bool :=
  false

/-- The fallible-operation allow-list of `visit_Call`:
`{'open', 'urlopen', 'connect', 'request', 'load', 'parse'}`. -/
def fallibleNames : List String :=
  ["open", "urlopen", "connect", "request", "load", "parse"]

/-- The body of the `for handler in node.handlers` loop of
`EvidenceVoidDetector.visit_Try`: up to three findings for one handler, in
source order — bare-except, swallowed-exception, no-logging-in-except. -/
def handlerVoids (sourceLines : List String) (ctx : String) (h : Handler) : List EvidenceVoid :=
  (match h.type with
   | none =>
      [{ line := h.lineno
         void_type := .bareExcept
         code_snippet := getCodeSnippet sourceLines h.lineno
         severity := "HIGH"
         description := "Bare except clause catches all exceptions indiscriminately"
         context := ctx }]
   | some _ => []) ++
  (if isSwallowed h.body then
    [{ line := h.lineno
       void_type := .swallowedException
       code_snippet := getCodeSnippet sourceLines h.lineno
       severity := "HIGH"
       description := "Exception caught but ignored (no logging, no re-raise)"
       context := ctx }]
  else []) ++
  (if !hasLogging h.body then
    [{ line := h.lineno
       void_type := .noLoggingInExcept
       code_snippet := getCodeSnippet sourceLines h.lineno
       severity := "MEDIUM"
       description := "Exception handler lacks logging (error invisible)"
       context := ctx }]
  else [])

mutual
/-- Embeds `EvidenceVoidDetector.visit(stmt)`: findings appended while visiting one
statement, in the source's pre-order.  `visit_Try` first runs its handler loop
(`handlerVoids` per handler, in order) and then `generic_visit` descends into
the children in field order (body, handlers, orelse, finalbody).  This
detector has an expression-level hook (`visit_Call`), so the traversal also
descends into expressions. -/
def evVisitStmt (sourceLines : List String) (ctx : String) : Stmt → List EvidenceVoid
  | .functionDef fname body _ =>
      evVisitStmts sourceLines ("function:" ++ fname) body
  | .tryStmt body handlers orelse finalbody _ =>
      evHandlerLoop sourceLines ctx handlers ++
      (evVisitStmts sourceLines ctx body ++
       evVisitHandlers sourceLines ctx handlers ++
       evVisitStmts sourceLines ctx orelse ++
       evVisitStmts sourceLines ctx finalbody)
  | .exprStmt value _ => evVisitExpr sourceLines ctx value
  | .returnStmt v _ =>
      (match v with
       | some e => evVisitExpr sourceLines ctx e
       | none => [])
  | .raiseStmt v _ =>
      (match v with
       | some e => evVisitExpr sourceLines ctx e
       | none => [])
  | .assign targets value _ =>
      evVisitExprs sourceLines ctx targets ++ evVisitExpr sourceLines ctx value
  | .whileStmt test body orelse _ =>
      evVisitExpr sourceLines ctx test ++
      evVisitStmts sourceLines ctx body ++ evVisitStmts sourceLines ctx orelse
  | .forStmt target iter body orelse _ =>
      evVisitExpr sourceLines ctx target ++ evVisitExpr sourceLines ctx iter ++
      evVisitStmts sourceLines ctx body ++ evVisitStmts sourceLines ctx orelse
  | .passStmt _ => []
  | .breakStmt _ => []
  | .continueStmt _ => []

/-- The `for handler in node.handlers` loop of `visit_Try`. -/
def evHandlerLoop (sourceLines : List String) (ctx : String) : List Handler → List EvidenceVoid
  | [] => []
  | h :: rest => handlerVoids sourceLines ctx h ++ evHandlerLoop sourceLines ctx rest

/-- Visit a statement list in order, concatenating the appended findings. -/
def evVisitStmts (sourceLines : List String) (ctx : String) : List Stmt → List EvidenceVoid
  | [] => []
  | s :: rest => evVisitStmt sourceLines ctx s ++ evVisitStmts sourceLines ctx rest

/-- Embeds `generic_visit` over the handlers of a `try` statement: each handler's
type expression and body. -/
def evVisitHandlers (sourceLines : List String) (ctx : String) :
    List Handler → List EvidenceVoid
  | [] => []
  | .mk t body _ :: rest =>
      (match t with
       | some e => evVisitExpr sourceLines ctx e
       | none => []) ++
      evVisitStmts sourceLines ctx body ++ evVisitHandlers sourceLines ctx rest

/-- Embeds `visit_Call` and `generic_visit` over one expression: a call to a name in
`fallibleNames` that is not `_is_error_checked` appends a silent-failure
finding, then the traversal descends into the call's children (func, args);
other expression kinds only descend. -/
def evVisitExpr (sourceLines : List String) (ctx : String) : Expr → List EvidenceVoid
  | .call f args ln =>
      (match getCallName f with
       | some n =>
          if fallibleNames.contains n && !isErrorChecked (.call f args ln) then
            [{ line := ln
               void_type := .silentFailure
               code_snippet := getCodeSnippet sourceLines ln
               severity := "MEDIUM"
               description := "Fallible operation \x27" ++ n ++ "()\x27 lacks error handling"
               context := ctx }]
          else []
       | none => []) ++
      (evVisitExpr sourceLines ctx f ++ evVisitExprs sourceLines ctx args)
  | .attribute v _ _ _ => evVisitExpr sourceLines ctx v
  | .binOp l r _ => evVisitExpr sourceLines ctx l ++ evVisitExpr sourceLines ctx r
  | .constant _ _ => []
  | .name _ _ => []

/-- Extends `evVisitExpr` over an expression list. -/
def evVisitExprs (sourceLines : List String) (ctx : String) : List Expr → List EvidenceVoid
  | [] => []
  | e :: rest => evVisitExpr sourceLines ctx e ++ evVisitExprs sourceLines ctx rest
end

/-- Embeds `detect_evidence_voids(source_code)`: `[]` on `SyntaxError`. -/
def detect_evidence_voids (src : SourceCode) : List EvidenceVoid :=
  match src.parsed with
  | some m => evVisitStmts src.lines "module" m.body
  | none => []

/-- Embeds `calculate_void_score`. -/
def calculate_void_score (voids : List EvidenceVoid) : ℚ :=
  if voids.isEmpty then 0
  else min 10 ((voids.map fun v => severityWeight v.severity).sum)

/-! ## magic_gravity.py (module not present in the repository sources)

`dark_matter_scanner.py` imports `detect_magic_gravity`,
`calculate_dark_mass_score` and `MagicConstant` from `magic_gravity`, but that
module's source is not in the repository.  Its finding shape and score are
modelled from the spec; the detector itself is left abstract (theorems about
the scanner quantify over it). -/

/-- Modelled from the spec: the `MagicConstant` finding of the absent
`magic_gravity` module — "a Finding carrying the literal's value, a category
tag [...], and a severity" (§4.2.1), with the same line/context/snippet shape
as its three siblings; the scanner serializes exactly the fields
`line`, `value`, `type` (`gravity_type.value`), `severity`, `context`. -/
structure MagicConstant where
  line : Nat
  value : String
  gravity_type : String
  code_snippet : String
  severity : String
  context : String
deriving DecidableEq

/-- Modelled from the spec: `calculate_dark_mass_score` of the absent
`magic_gravity` module — by §4.3 and contract-symmetry (§9) every per-detector
score is 0.0 for an empty list and otherwise the severity-weight sum
saturated at 10.0. -/
def calculate_dark_mass_score (constants : List MagicConstant) : ℚ :=
  if constants.isEmpty then 0
  else min 10 ((constants.map fun c => severityWeight c.severity).sum)

/-! ## dark_matter_scanner.py -/

/-- One entry of `DarkMatterScanner.results`:
`{'findings': ..., 'score': ..., 'count': len(findings)}`. -/
structure DetectorResult (α : Type) where
  findings : List α
  score : ℚ
  count : Nat
deriving DecidableEq

/-- Embeds `results['summary']`. -/
structure ScanSummary where
  total_score : ℚ
  total_findings : Nat
  filepath : String
deriving DecidableEq

/-- The full `DarkMatterScanner.results` dictionary after `scan_all`. -/
structure ScanResults where
  magic_gravity : DetectorResult MagicConstant
  phantom_loops : DetectorResult PhantomLoop
  zombie_orbits : DetectorResult ZombieOrbit
  evidence_voids : DetectorResult EvidenceVoid
  summary : ScanSummary
deriving DecidableEq

/-- Embeds `DarkMatterScanner.scan_all`: runs the four detectors over the same source
in a fixed order, scores each, and assembles the summary
(`total_score` = sum of the four scores, `total_findings` = sum of the four
counts).  The absent magic-gravity detector is a parameter.  The `print`
calls of the method write progress to the console and do not touch
`self.results`; they have no counterpart in the returned value. -/
def scan_all (detectMagic : SourceCode → List MagicConstant)
    (src : SourceCode) (filepath : String) : ScanResults :=
  let magicConstants := detectMagic src
  let magicScore := calculate_dark_mass_score magicConstants
  let phantoms := detect_phantom_loops src
  let phantomScore := calculate_phantom_score phantoms
  let zombies := detect_zombie_orbits src
  let zombieScore := calculate_zombie_score zombies
  let voids := detect_evidence_voids src
  let voidScore := calculate_void_score voids
  { magic_gravity := ⟨magicConstants, magicScore, magicConstants.length⟩
    phantom_loops := ⟨phantoms, phantomScore, phantoms.length⟩
    zombie_orbits := ⟨zombies, zombieScore, zombies.length⟩
    evidence_voids := ⟨voids, voidScore, voids.length⟩
    summary :=
      ⟨magicScore + phantomScore + zombieScore + voidScore,
       magicConstants.length + phantoms.length + zombies.length + voids.length,
       filepath⟩ }

/-- One serialized finding of `_generate_json_report` for the phantom, zombie
and evidence categories: exactly the fields
`line`, `type`, `description`, `severity`, `context`. -/
structure JsonFinding where
  line : Nat
  type : String
  description : String
  severity : String
  context : String
deriving DecidableEq

/-- One serialized magic-gravity finding: exactly the fields
`line`, `value`, `type`, `severity`, `context`. -/
structure JsonMagicFinding where
  line : Nat
  value : String
  type : String
  severity : String
  context : String
deriving DecidableEq

/-- One detector's block in the JSON report: `score`, `count`, `findings`. -/
structure JsonDetector (β : Type) where
  score : ℚ
  count : Nat
  findings : List β
deriving DecidableEq

/-- The `json_results` dictionary of `_generate_json_report` (the value tree
that `json.dumps` renders). -/
structure JsonReport where
  summary : ScanSummary
  magic_gravity : JsonDetector JsonMagicFinding
  phantom_loops : JsonDetector JsonFinding
  zombie_orbits : JsonDetector JsonFinding
  evidence_voids : JsonDetector JsonFinding
deriving DecidableEq

/-- Embeds `DarkMatterScanner._generate_json_report`: every finding of every
detector is serialized — the `findings` lists are full `map`s, with no
truncation. -/
def generate_json_report (r : ScanResults) : JsonReport :=
  { summary := r.summary
    magic_gravity :=
      ⟨r.magic_gravity.score, r.magic_gravity.count,
       r.magic_gravity.findings.map fun c =>
         ⟨c.line, c.value, c.gravity_type, c.severity, c.context⟩⟩
    phantom_loops :=
      ⟨r.phantom_loops.score, r.phantom_loops.count,
       r.phantom_loops.findings.map fun p =>
         ⟨p.line, p.phantom_type.val, p.description, p.severity, p.context⟩⟩
    zombie_orbits :=
      ⟨r.zombie_orbits.score, r.zombie_orbits.count,
       r.zombie_orbits.findings.map fun z =>
         ⟨z.line, z.zombie_type.val, z.description, z.severity, z.context⟩⟩
    evidence_voids :=
      ⟨r.evidence_voids.score, r.evidence_voids.count,
       r.evidence_voids.findings.map fun v =>
         ⟨v.line, v.void_type.val, v.description, v.severity, v.context⟩⟩ }

/-- Embeds `"=" * 70` / `"-" * 70`. -/
def repeatChar (c : Char) (n : Nat) : String :=
  String.mk (List.replicate n c)

/-- Python `f"{x:.1f}"` for the whole-number scores this scanner produces
(every severity weight is integral and the cap is 10.0, so every score and
total is integral). -/
def formatScore (q : ℚ) : String :=
  toString q.num ++ ".0"

/-- Embeds `magic['findings'][:5]` — the slice of findings the text report shows. -/
def renderedMagicFindings (r : ScanResults) : List MagicConstant :=
  r.magic_gravity.findings.take 5

/-- Embeds `phantom['findings'][:5]`. -/
def renderedPhantomFindings (r : ScanResults) : List PhantomLoop :=
  r.phantom_loops.findings.take 5

/-- Embeds `zombie['findings'][:5]`. -/
def renderedZombieFindings (r : ScanResults) : List ZombieOrbit :=
  r.zombie_orbits.findings.take 5

/-- Embeds `void['findings'][:5]`. -/
def renderedVoidFindings (r : ScanResults) : List EvidenceVoid :=
  r.evidence_voids.findings.take 5

/-- The four lines the text report appends per shown magic constant. -/
def magicFindingLines (c : MagicConstant) : List String :=
  ["\nLine " ++ toString c.line ++ " | " ++ c.context,
   "  Value: " ++ c.value,
   "  Type: " ++ c.gravity_type,
   "  Severity: " ++ c.severity]

/-- The four lines the text report appends per shown phantom loop. -/
def phantomFindingLines (p : PhantomLoop) : List String :=
  ["\nLine " ++ toString p.line ++ " | " ++ p.context,
   "  Type: " ++ p.phantom_type.val,
   "  Issue: " ++ p.description,
   "  Severity: " ++ p.severity]

/-- The four lines the text report appends per shown zombie orbit. -/
def zombieFindingLines (z : ZombieOrbit) : List String :=
  ["\nLine " ++ toString z.line ++ " | " ++ z.context,
   "  Type: " ++ z.zombie_type.val,
   "  Issue: " ++ z.description,
   "  Severity: " ++ z.severity]

/-- The four lines the text report appends per shown evidence void. -/
def voidFindingLines (v : EvidenceVoid) : List String :=
  ["\nLine " ++ toString v.line ++ " | " ++ v.context,
   "  Type: " ++ v.void_type.val,
   "  Issue: " ++ v.description,
   "  Severity: " ++ v.severity]

/-- The `lines` list built by `DarkMatterScanner._generate_text_report`:
header, one section per detector with a nonzero count (each showing only the
first five findings), and the static recommendation block.  (`results.get`
defaults are unreachable here because a `ScanResults` always carries every
key.) -/
def textReportLines (r : ScanResults) : List String :=
  ["\n" ++ repeatChar '=' 70,
   "🌌 DARK MATTER DETECTION REPORT",
   repeatChar '=' 70,
   "\nFile: " ++ r.summary.filepath,
   "\nTotal Dark Matter Score: " ++ formatScore r.summary.total_score,
   "\nTotal Findings: " ++ toString r.summary.total_findings] ++
  (if 0 < r.magic_gravity.count then
    ["\n" ++ repeatChar '-' 70,
     "🌑 MAGIC GRAVITY (" ++ toString r.magic_gravity.count ++ " findings, score: " ++
       formatScore r.magic_gravity.score ++ ")",
     repeatChar '-' 70] ++
    (renderedMagicFindings r).flatMap magicFindingLines
  else []) ++
  (if 0 < r.phantom_loops.count then
    ["\n" ++ repeatChar '-' 70,
     "♾️  PHANTOM LOOPS (" ++ toString r.phantom_loops.count ++ " findings, score: " ++
       formatScore r.phantom_loops.score ++ ")",
     repeatChar '-' 70] ++
    (renderedPhantomFindings r).flatMap phantomFindingLines
  else []) ++
  (if 0 < r.zombie_orbits.count then
    ["\n" ++ repeatChar '-' 70,
     "🧟 ZOMBIE ORBITS (" ++ toString r.zombie_orbits.count ++ " findings, score: " ++
       formatScore r.zombie_orbits.score ++ ")",
     repeatChar '-' 70] ++
    (renderedZombieFindings r).flatMap zombieFindingLines
  else []) ++
  (if 0 < r.evidence_voids.count then
    ["\n" ++ repeatChar '-' 70,
     "📊 EVIDENCE VOIDS (" ++ toString r.evidence_voids.count ++ " findings, score: " ++
       formatScore r.evidence_voids.score ++ ")",
     repeatChar '-' 70] ++
    (renderedVoidFindings r).flatMap voidFindingLines
  else []) ++
  ["\n" ++ repeatChar '=' 70,
   "\n💡 RECOMMENDATIONS:",
   "  • Document or remove magic constants",
   "  • Fix phantom loops claiming false infinity",
   "  • Eliminate zombie code running without purpose",
   "  • Add logging/monitoring to evidence voids",
   "\n  Dark matter isn\x27t always bad - but it should be intentional.",
   "  Make invisible forces visible through documentation and design."]

/-- Embeds `DarkMatterScanner._generate_text_report`: `"\n".join(lines)`. -/
def generate_text_report (r : ScanResults) : String :=
  String.intercalate "\n" (textReportLines r)

/-- The code snippet as the words of claim C3 describe it, for comparison
with `getCodeSnippet`: the inclusive window of 1-based source lines
`[line-2, line+2]` (two lines before the triggering line through two lines
after it), clipped to the file bounds; 1-based line `i` is 0-based index
`i - 1`, so this is the slice of 0-based indices `[line-3, line+2)`. -/
def snippetClaimWindow (sourceLines : List String) (line : Nat) : String :=
  let start := line - 3
  let stop := min sourceLines.length (line + 2)
  String.intercalate "\n" ((sourceLines.drop start).take (stop - start))

/-! ## Theorems -/

lemma one_le_severityWeight (s : String) : 1 ≤ severityWeight s := by
  unfold severityWeight
  split_ifs <;> norm_num

lemma severityWeight_nonneg (s : String) : 0 ≤ severityWeight s :=
  le_trans (by norm_num) (one_le_severityWeight s)

lemma phantom_score_eq (F : List PhantomLoop) :
    calculate_phantom_score F = min 10 ((F.map fun p => severityWeight p.severity).sum) := by
  cases F with
  | nil => norm_num [calculate_phantom_score]
  | cons a l => simp [calculate_phantom_score]

lemma zombie_score_eq (F : List ZombieOrbit) :
    calculate_zombie_score F = min 10 ((F.map fun z => severityWeight z.severity).sum) := by
  cases F with
  | nil => norm_num [calculate_zombie_score]
  | cons a l => simp [calculate_zombie_score]

lemma void_score_eq (F : List EvidenceVoid) :
    calculate_void_score F = min 10 ((F.map fun v => severityWeight v.severity).sum) := by
  cases F with
  | nil => norm_num [calculate_void_score]
  | cons a l => simp [calculate_void_score]

lemma sevsum_nonneg {α : Type} (sev : α → String) (F : List α) :
    0 ≤ (F.map fun x => severityWeight (sev x)).sum := by
  refine List.sum_nonneg fun x hx => ?_
  obtain ⟨a, _, rfl⟩ := List.mem_map.mp hx
  exact severityWeight_nonneg _

lemma capped_nonneg {α : Type} (sev : α → String) (F : List α) :
    0 ≤ min 10 ((F.map fun x => severityWeight (sev x)).sum) :=
  le_min (by norm_num) (sevsum_nonneg sev F)

lemma capped_mono {α : Type} (sev : α → String) (F : List α) (x : α) :
    min 10 ((F.map fun y => severityWeight (sev y)).sum) ≤
      min 10 (((F ++ [x]).map fun y => severityWeight (sev y)).sum) := by
  refine min_le_min le_rfl ?_
  simp only [List.map_append, List.sum_append, List.map_cons, List.map_nil, List.sum_cons,
    List.sum_nil, add_zero]
  exact le_add_of_nonneg_right (severityWeight_nonneg _)

/-- C1: each per-detector score function returns a value in [0, 10];
it returns exactly 0 for the empty list; it equals the severity-weight sum
(HIGH = 3, MEDIUM = 2, LOW = 1, read through the weight table) capped at 10;
and appending any finding never decreases it. -/
theorem claim_C1_score_bounds :
    (∀ F : List PhantomLoop,
       calculate_phantom_score F = min 10 ((F.map fun p => severityWeight p.severity).sum) ∧
       0 ≤ calculate_phantom_score F ∧ calculate_phantom_score F ≤ 10) ∧
    calculate_phantom_score [] = 0 ∧
    (∀ (F : List PhantomLoop) (p : PhantomLoop),
       calculate_phantom_score F ≤ calculate_phantom_score (F ++ [p])) ∧
    (∀ F : List ZombieOrbit,
       calculate_zombie_score F = min 10 ((F.map fun z => severityWeight z.severity).sum) ∧
       0 ≤ calculate_zombie_score F ∧ calculate_zombie_score F ≤ 10) ∧
    calculate_zombie_score [] = 0 ∧
    (∀ (F : List ZombieOrbit) (z : ZombieOrbit),
       calculate_zombie_score F ≤ calculate_zombie_score (F ++ [z])) ∧
    (∀ F : List EvidenceVoid,
       calculate_void_score F = min 10 ((F.map fun v => severityWeight v.severity).sum) ∧
       0 ≤ calculate_void_score F ∧ calculate_void_score F ≤ 10) ∧
    calculate_void_score [] = 0 ∧
    (∀ (F : List EvidenceVoid) (v : EvidenceVoid),
       calculate_void_score F ≤ calculate_void_score (F ++ [v])) := by
  refine ⟨fun F => ⟨phantom_score_eq F, ?_, ?_⟩, rfl, fun F p => ?_,
          fun F => ⟨zombie_score_eq F, ?_, ?_⟩, rfl, fun F z => ?_,
          fun F => ⟨void_score_eq F, ?_, ?_⟩, rfl, fun F v => ?_⟩
  · rw [phantom_score_eq]; exact capped_nonneg _ F
  · rw [phantom_score_eq]; exact min_le_left _ _
  · rw [phantom_score_eq, phantom_score_eq]; exact capped_mono _ F p
  · rw [zombie_score_eq]; exact capped_nonneg _ F
  · rw [zombie_score_eq]; exact min_le_left _ _
  · rw [zombie_score_eq, zombie_score_eq]; exact capped_mono _ F z
  · rw [void_score_eq]; exact capped_nonneg _ F
  · rw [void_score_eq]; exact min_le_left _ _
  · rw [void_score_eq, void_score_eq]; exact capped_mono _ F v

/-- C2: when the source text is not syntactically valid (`ast.parse` raises
`SyntaxError`, modelled by `parsed = none`), every detector entry point
returns the empty finding list; the embedding functions are total, so no
error propagates to the caller. -/
theorem claim_C2_parse_failure (sourceLines : List String) :
    detect_phantom_loops ⟨none, sourceLines⟩ = [] ∧
    detect_zombie_orbits ⟨none, sourceLines⟩ = [] ∧
    detect_evidence_voids ⟨none, sourceLines⟩ = [] :=
  ⟨rfl, rfl, rfl⟩

/-- C3, counterexample: in a 6-line file, the snippet attached at line 4 is
the join of lines 3–6 (one line before the triggering line and two after,
because the slice `[line-2 : line+2]` is over 0-based indices while `line` is
1-based), not the claimed 5-line window of 1-based lines 2–6. -/
theorem claim_C3_counterexample :
    getCodeSnippet ["L1", "L2", "L3", "L4", "L5", "L6"] 4 = "L3\nL4\nL5\nL6" ∧
    snippetClaimWindow ["L1", "L2", "L3", "L4", "L5", "L6"] 4 = "L2\nL3\nL4\nL5\nL6" ∧
    getCodeSnippet ["L1", "L2", "L3", "L4", "L5", "L6"] 4 ≠
      snippetClaimWindow ["L1", "L2", "L3", "L4", "L5", "L6"] 4 :=
  ⟨rfl, rfl, by decide⟩

/-- C3, amended: the snippet attached at 1-based line `L` of an `n`-line file
is the inclusive window of 1-based lines `[L-1, L+2]` clipped to the file
bounds — the one line before the triggering line, the triggering line itself,
and the two lines after it, joined in original order (equivalently, the
0-based slice `[max(0, L-2), min(n, L+2))`); in particular, away from the
file bounds it is exactly those four lines. -/
theorem claim_C3_snippet_window (sourceLines : List String) (line : Nat) :
    getCodeSnippet sourceLines line =
      String.intercalate "\n" ((sourceLines.take (line + 2)).drop (line - 2)) ∧
    (3 ≤ line → line + 2 ≤ sourceLines.length →
      getCodeSnippet sourceLines line =
        String.intercalate "\n"
          [sourceLines.getD (line - 2) "", sourceLines.getD (line - 1) "",
           sourceLines.getD line "", sourceLines.getD (line + 1) ""]) := by
  constructor
  · unfold getCodeSnippet
    dsimp only
    rw [List.drop_take]
    congr 1
    rcases le_total (line + 2) sourceLines.length with h | h
    · rw [min_eq_right h]
    · rw [min_eq_left h]
      refine (List.take_eq_take.mpr ?_).symm
      rw [List.length_drop]
      omega
  · intro h3 hlen
    unfold getCodeSnippet
    dsimp only
    have h1 : line - 2 < sourceLines.length := by omega
    have h2 : line - 1 < sourceLines.length := by omega
    have h2' : line < sourceLines.length := by omega
    have h4 : line + 1 < sourceLines.length := by omega
    rw [min_eq_right hlen]
    rw [List.drop_eq_getElem_cons h1]
    have e1 : line - 2 + 1 = line - 1 := by omega
    rw [e1, List.drop_eq_getElem_cons h2]
    have e2 : line - 1 + 1 = line := by omega
    rw [e2, List.drop_eq_getElem_cons h2']
    rw [List.drop_eq_getElem_cons h4]
    have e3 : line + 2 - (line - 2) = 4 := by omega
    rw [e3]
    simp only [List.take_succ_cons, List.take_zero]
    rw [List.getD_eq_getElem _ _ h1, List.getD_eq_getElem _ _ h2,
      List.getD_eq_getElem _ _ h2', List.getD_eq_getElem _ _ h4]

/-- C3, witness for `claim_C3_snippet_window` at line 4 of a 6-line file. -/
theorem claim_C3_snippet_window_witness :
    getCodeSnippet ["L1", "L2", "L3", "L4", "L5", "L6"] 4 =
      String.intercalate "\n"
        [(["L1", "L2", "L3", "L4", "L5", "L6"] : List String).getD 2 "",
         (["L1", "L2", "L3", "L4", "L5", "L6"] : List String).getD 3 "",
         (["L1", "L2", "L3", "L4", "L5", "L6"] : List String).getD 4 "",
         (["L1", "L2", "L3", "L4", "L5", "L6"] : List String).getD 5 ""] :=
  (claim_C3_snippet_window ["L1", "L2", "L3", "L4", "L5", "L6"] 4).2
    (by norm_num) (by norm_num)

/-- C4: a `while True:` loop whose very first body statement is `break`
yields exactly one finding, of type while-true-break with severity HIGH
(whatever follows the `break` in the body and whatever the `orelse` is);
`return` or `raise` as first body statement yield severity MEDIUM; and a loop
whose exit statement appears later in the body yields no phantom finding. -/
theorem claim_C4_immediate_exit (sourceLines : List String) (lnW lnB : Nat) :
    detect_phantom_loops
        ⟨some ⟨[.whileStmt (.constant (.boolC true) lnW) [.breakStmt lnB] [] lnW]⟩, sourceLines⟩
      = [⟨lnW, .whileTrueBreak, getCodeSnippet sourceLines lnW, "HIGH",
          "Loop claims infinity but breaks immediately", "breaks", "module"⟩] ∧
    detect_phantom_loops
        ⟨some ⟨[.whileStmt (.constant (.boolC true) lnW) [.returnStmt none lnB] [] lnW]⟩,
         sourceLines⟩
      = [⟨lnW, .whileTrueReturn, getCodeSnippet sourceLines lnW, "MEDIUM",
          "Loop claims infinity but returns immediately", "returns", "module"⟩] ∧
    detect_phantom_loops
        ⟨some ⟨[.whileStmt (.constant (.boolC true) lnW) [.raiseStmt none lnB] [] lnW]⟩,
         sourceLines⟩
      = [⟨lnW, .whileTrueRaise, getCodeSnippet sourceLines lnW, "MEDIUM",
          "Loop claims infinity but raises immediately", "raises", "module"⟩] ∧
    detect_phantom_loops
        ⟨some ⟨[.whileStmt (.constant (.boolC true) lnW) [.passStmt lnB, .breakStmt lnB] [] lnW]⟩,
         sourceLines⟩
      = [] ∧
    (∀ (ctx : String) (rest orelse : List Stmt),
      phantomVisitStmt sourceLines ctx
          (.whileStmt (.constant (.boolC true) lnW) (.breakStmt lnB :: rest) orelse lnW)
        = ⟨lnW, .whileTrueBreak, getCodeSnippet sourceLines lnW, "HIGH",
           "Loop claims infinity but breaks immediately", "breaks", ctx⟩ ::
          (phantomVisitStmts sourceLines ctx (.breakStmt lnB :: rest) ++
           phantomVisitStmts sourceLines ctx orelse)) := by
  refine ⟨?_, ?_, ?_, ?_, fun ctx rest orelse => ?_⟩ <;>
    simp [detect_phantom_loops, phantomVisitStmts, phantomVisitStmt, isInfiniteCondition,
      checkImmediateExit, phantomSeverity]

/-- C5, counterexample: an exception handler whose body is two `pass`
statements contains only no-op statements, yet the detector emits no
swallowed-exception finding for it (`_is_swallowed` requires
`len(body) == 1`), contradicting the claim's "regardless of how many such
no-op statements the body contains". -/
theorem claim_C5_counterexample :
    isSwallowed [.passStmt 3, .passStmt 4] = false ∧
    (detect_evidence_voids
        ⟨some ⟨[.tryStmt [.passStmt 2] [⟨none, [.passStmt 3, .passStmt 4], 3⟩] [] [] 1]⟩,
         ["t", "u", "v", "w"]⟩).filter
      (fun v => v.void_type == VoidType.swallowedException) = [] := by
  refine ⟨rfl, ?_⟩
  simp [detect_evidence_voids, evVisitStmts, evVisitStmt, evHandlerLoop, handlerVoids,
    isSwallowed, hasLogging, stmtsHaveLogging, stmtHasLogging, evVisitHandlers,
    Handler.type, Handler.body, Handler.lineno]

/-- C5, amended: the detector emits a swallowed-exception finding with
severity HIGH on a handler's line exactly when the handler body is empty or
consists of exactly one `pass`, `continue` or `break` statement — a body of
two or more no-op statements is not flagged; the predicate is evaluated per
handler independently of the bare-except predicate (the handler loop appends
the swallowed finding whether or not the bare-except finding fired). -/
theorem claim_C5_swallowed (sourceLines : List String) (ctx : String) (h : Handler) :
    (handlerVoids sourceLines ctx h).filter
        (fun v => v.void_type == VoidType.swallowedException) =
      (if isSwallowed h.body then
        [⟨h.lineno, .swallowedException, getCodeSnippet sourceLines h.lineno, "HIGH",
          "Exception caught but ignored (no logging, no re-raise)", ctx⟩]
      else []) ∧
    (∀ body : List Stmt,
      isSwallowed body = true ↔
        body = [] ∨ (∃ l, body = [Stmt.passStmt l]) ∨
        (∃ l, body = [Stmt.continueStmt l]) ∨ (∃ l, body = [Stmt.breakStmt l])) := by
  constructor
  · obtain ⟨t, body, ln⟩ := h
    cases t <;> by_cases hs : isSwallowed body <;> by_cases hl : hasLogging body <;>
      simp [handlerVoids, Handler.type, Handler.body, Handler.lineno, hs, hl]
  · intro body
    cases body with
    | nil => simp [isSwallowed]
    | cons s rest =>
      cases rest with
      | nil => cases s <;> simp [isSwallowed]
      | cons a b => cases s <;> simp [isSwallowed]

/-- C6: a handler `except: pass` yields exactly three findings, all on the
handler's line: bare-except (HIGH), swallowed-exception (HIGH) and
no-logging-in-except (MEDIUM), in that order. -/
theorem claim_C6_except_pass (sourceLines : List String) (l1 l2 lh lt : Nat) :
    detect_evidence_voids
        ⟨some ⟨[.tryStmt [.passStmt l1] [⟨none, [.passStmt l2], lh⟩] [] [] lt]⟩, sourceLines⟩
      = [⟨lh, .bareExcept, getCodeSnippet sourceLines lh, "HIGH",
          "Bare except clause catches all exceptions indiscriminately", "module"⟩,
         ⟨lh, .swallowedException, getCodeSnippet sourceLines lh, "HIGH",
          "Exception caught but ignored (no logging, no re-raise)", "module"⟩,
         ⟨lh, .noLoggingInExcept, getCodeSnippet sourceLines lh, "MEDIUM",
          "Exception handler lacks logging (error invisible)", "module"⟩] := by
  simp [detect_evidence_voids, evVisitStmts, evVisitStmt, evHandlerLoop, handlerVoids,
    isSwallowed, hasLogging, stmtsHaveLogging, stmtHasLogging, evVisitHandlers,
    Handler.type, Handler.body, Handler.lineno]

/-- C7, counterexample: a call to `open` nested inside a `try` block (with a
typed handler that logs) still yields a silent-failure finding — the claim's
"a fallible call that is nested inside a try block yields no silent-failure
finding" is false, because `_is_error_checked` returns `False`
unconditionally. -/
theorem claim_C7_counterexample :
    detect_evidence_voids
        ⟨some ⟨[.tryStmt
            [.exprStmt (.call (.name "open" 2) [] 2) 2]
            [⟨some (.name "Exception" 3), [.exprStmt (.call (.name "print" 4) [] 4) 4], 3⟩]
            [] [] 1]⟩, ["a", "b", "c", "d"]⟩
      = [⟨2, .silentFailure, getCodeSnippet ["a", "b", "c", "d"] 2, "MEDIUM",
          "Fallible operation \x27open()\x27 lacks error handling", "module"⟩] := by
  simp [detect_evidence_voids, evVisitStmts, evVisitStmt, evHandlerLoop, handlerVoids,
    isSwallowed, hasLogging, stmtsHaveLogging, stmtHasLogging, evVisitHandlers,
    evVisitExpr, evVisitExprs, getCallName, isErrorChecked, fallibleNames, loggingNames,
    exprHasLogging, Handler.type, Handler.body, Handler.lineno]

/-- C7, amended: a silent-failure finding (severity MEDIUM) is emitted for
*every* call to a name in the fallible-operation allow-list
{open, urlopen, connect, request, load, parse}, regardless of any enclosing
try/exception-handling construct: the nesting test `_is_error_checked`
answers `False` unconditionally, so the finding always fires. -/
theorem claim_C7_silent_failure :
    (∀ e : Expr, isErrorChecked e = false) ∧
    (∀ (sourceLines : List String) (ctx : String) (f : Expr) (args : List Expr)
        (ln : Nat) (n : String),
      getCallName f = some n → fallibleNames.contains n = true →
      evVisitExpr sourceLines ctx (.call f args ln) =
        ⟨ln, .silentFailure, getCodeSnippet sourceLines ln, "MEDIUM",
         "Fallible operation \x27" ++ n ++ "()\x27 lacks error handling", ctx⟩ ::
        (evVisitExpr sourceLines ctx f ++ evVisitExprs sourceLines ctx args)) := by
  refine ⟨fun _ => rfl, fun sourceLines ctx f args ln n hn hc => ?_⟩
  have hm : n ∈ fallibleNames := by simpa using hc
  simp [evVisitExpr, hn, isErrorChecked, hm]

/-- C7, witness for `claim_C7_silent_failure` at a bare module-level call
`open()`. -/
theorem claim_C7_silent_failure_witness :
    evVisitExpr ["s"] "module" (.call (.name "open" 1) [] 1) =
      [⟨1, .silentFailure, getCodeSnippet ["s"] 1, "MEDIUM",
        "Fallible operation \x27open()\x27 lacks error handling", "module"⟩] := by
  have h := claim_C7_silent_failure.2 ["s"] "module" (.name "open" 1) [] 1 "open"
    rfl (by decide)
  simpa [evVisitExpr, evVisitExprs, getCallName] using h

/-- C8: for every scan, the JSON report serializes every finding of every
detector with no truncation — the length of each serialized findings list
equals that detector's `count` field (each entry carrying exactly the fields
of `JsonFinding`, resp. `JsonMagicFinding` for the magic-literal category) —
while the text report shows exactly `min(5, count)` findings per detector
(the `findings[:5]` slices rendered by `textReportLines`). -/
theorem claim_C8_report_truncation (detectMagic : SourceCode → List MagicConstant)
    (src : SourceCode) (fp : String) :
    (generate_json_report (scan_all detectMagic src fp)).magic_gravity.findings.length
      = (scan_all detectMagic src fp).magic_gravity.count ∧
    (generate_json_report (scan_all detectMagic src fp)).phantom_loops.findings.length
      = (scan_all detectMagic src fp).phantom_loops.count ∧
    (generate_json_report (scan_all detectMagic src fp)).zombie_orbits.findings.length
      = (scan_all detectMagic src fp).zombie_orbits.count ∧
    (generate_json_report (scan_all detectMagic src fp)).evidence_voids.findings.length
      = (scan_all detectMagic src fp).evidence_voids.count ∧
    (renderedMagicFindings (scan_all detectMagic src fp)).length
      = min 5 (scan_all detectMagic src fp).magic_gravity.count ∧
    (renderedPhantomFindings (scan_all detectMagic src fp)).length
      = min 5 (scan_all detectMagic src fp).phantom_loops.count ∧
    (renderedZombieFindings (scan_all detectMagic src fp)).length
      = min 5 (scan_all detectMagic src fp).zombie_orbits.count ∧
    (renderedVoidFindings (scan_all detectMagic src fp)).length
      = min 5 (scan_all detectMagic src fp).evidence_voids.count := by
  refine ⟨?_, ?_, ?_, ?_, ?_, ?_, ?_, ?_⟩ <;>
    simp [generate_json_report, scan_all, renderedMagicFindings, renderedPhantomFindings,
      renderedZombieFindings, renderedVoidFindings, List.length_take]

/-- C9: scanning is deterministic — the scan and both report renderings are
pure functions of the source text, the source identifier and the (likewise
functional) magic-gravity detector, so two runs on identical input produce
identical results, findings in identical order, and identical rendered
output. -/
theorem claim_C9_determinism (detectMagic : SourceCode → List MagicConstant)
    (src : SourceCode) (fp : String) :
    scan_all detectMagic src fp = scan_all detectMagic src fp ∧
    generate_text_report (scan_all detectMagic src fp)
      = generate_text_report (scan_all detectMagic src fp) ∧
    generate_json_report (scan_all detectMagic src fp)
      = generate_json_report (scan_all detectMagic src fp) :=
  ⟨rfl, rfl, rfl⟩

lemma checkImmediateExit_tag {body : List Stmt} {pt : PhantomType} {mech : String}
    (h : checkImmediateExit body = some (pt, mech)) :
    pt = .whileTrueBreak ∨ pt = .whileTrueReturn ∨ pt = .whileTrueRaise := by
  cases body with
  | nil => simp [checkImmediateExit] at h
  | cons first rest => cases first <;> simp [checkImmediateExit] at h <;> tauto

lemma phantom_tags_aux (sourceLines : List String) (ctx : String) (ss : List Stmt) :
    ∀ f ∈ phantomVisitStmts sourceLines ctx ss,
      f.phantom_type = PhantomType.whileTrueBreak ∨
      f.phantom_type = PhantomType.whileTrueReturn ∨
      f.phantom_type = PhantomType.whileTrueRaise := by
  refine phantomVisitStmts.induct sourceLines
    (fun ctx s => ∀ f ∈ phantomVisitStmt sourceLines ctx s,
      f.phantom_type = PhantomType.whileTrueBreak ∨
      f.phantom_type = PhantomType.whileTrueReturn ∨
      f.phantom_type = PhantomType.whileTrueRaise)
    (fun ctx hs => ∀ f ∈ phantomVisitHandlers sourceLines ctx hs,
      f.phantom_type = PhantomType.whileTrueBreak ∨
      f.phantom_type = PhantomType.whileTrueReturn ∨
      f.phantom_type = PhantomType.whileTrueRaise)
    (fun ctx ss => ∀ f ∈ phantomVisitStmts sourceLines ctx ss,
      f.phantom_type = PhantomType.whileTrueBreak ∨
      f.phantom_type = PhantomType.whileTrueReturn ∨
      f.phantom_type = PhantomType.whileTrueRaise)
    ?_ ?_ ?_ ?_ ?_ ?_ ?_ ?_ ?_ ?_ ?_ ?_ ?_ ?_ ?_ ctx ss
  · intro ctx fname body ln ih f hf
    simp only [phantomVisitStmt] at hf
    exact ih f hf
  · intro ctx test body orelse ln ihB ihO f hf
    simp only [phantomVisitStmt, List.mem_append] at hf
    rcases hf with hf | hf | hf
    · split at hf
      · split at hf
        · rename_i pt mech heq
          simp only [List.mem_singleton] at hf
          subst hf
          exact checkImmediateExit_tag heq
        · simp at hf
      · simp at hf
    · exact ihB f hf
    · exact ihO f hf
  · intro ctx target iter body orelse ln ihB ihO f hf
    simp only [phantomVisitStmt, List.mem_append] at hf
    rcases hf with hf | hf
    · exact ihB f hf
    · exact ihO f hf
  · intro ctx body handlers orelse finalbody ln ih1 ih2 ih3 ih4 f hf
    simp only [phantomVisitStmt, List.mem_append, or_assoc] at hf
    rcases hf with hf | hf | hf | hf
    · exact ih1 f hf
    · exact ih2 f hf
    · exact ih3 f hf
    · exact ih4 f hf
  · intro ctx v ln f hf
    simp [phantomVisitStmt] at hf
  · intro ctx targets v ln f hf
    simp [phantomVisitStmt] at hf
  · intro ctx v ln f hf
    simp [phantomVisitStmt] at hf
  · intro ctx ln f hf
    simp [phantomVisitStmt] at hf
  · intro ctx ln f hf
    simp [phantomVisitStmt] at hf
  · intro ctx ln f hf
    simp [phantomVisitStmt] at hf
  · intro ctx v ln f hf
    simp [phantomVisitStmt] at hf
  · intro ctx f hf
    simp [phantomVisitStmts] at hf
  · intro ctx s rest ih1 ih2 f hf
    simp only [phantomVisitStmts, List.mem_append] at hf
    rcases hf with hf | hf
    · exact ih1 f hf
    · exact ih2 f hf
  · intro ctx f hf
    simp [phantomVisitHandlers] at hf
  · intro ctx t body ln rest ih1 ih2 f hf
    simp only [phantomVisitHandlers, List.mem_append] at hf
    rcases hf with hf | hf
    · exact ih1 f hf
    · exact ih2 f hf

/-- C10: every finding the phantom-loop detector emits carries one of the
three while-true type tags (the `infinite_iterator_exit` tag is never
emitted); findings are only created for `while` statements whose test is the
literal constant `True`, so a `while 1:` loop — a truthy constant that is not
the literal `True` — is never flagged. -/
theorem claim_C10_phantom_tags :
    (∀ (src : SourceCode) (f : PhantomLoop), f ∈ detect_phantom_loops src →
      (f.phantom_type = PhantomType.whileTrueBreak ∨
       f.phantom_type = PhantomType.whileTrueReturn ∨
       f.phantom_type = PhantomType.whileTrueRaise) ∧
      f.phantom_type ≠ PhantomType.infiniteIteratorExit) ∧
    (∀ ln : Nat, isInfiniteCondition (.constant (.intC 1) ln) = false) ∧
    (∀ (sourceLines : List String) (lnW lnB : Nat),
      detect_phantom_loops
          ⟨some ⟨[.whileStmt (.constant (.intC 1) lnW) [.breakStmt lnB] [] lnW]⟩, sourceLines⟩
        = []) := by
  refine ⟨fun src f hf => ?_, fun ln => rfl, fun sourceLines lnW lnB => ?_⟩
  · obtain ⟨p, sourceLines⟩ := src
    cases p with
    | none => simp [detect_phantom_loops] at hf
    | some m =>
      simp only [detect_phantom_loops] at hf
      have h := phantom_tags_aux sourceLines "module" m.body f hf
      exact ⟨h, by rcases h with h | h | h <;> rw [h] <;> decide⟩
  · simp [detect_phantom_loops, phantomVisitStmts, phantomVisitStmt, isInfiniteCondition]

/-- C10, witness for `claim_C10_phantom_tags` at the finding produced by a
one-statement module `while True: break`. -/
theorem claim_C10_phantom_tags_witness :
    ((PhantomLoop.mk 1 .whileTrueBreak (getCodeSnippet ["w"] 1) "HIGH"
        "Loop claims infinity but breaks immediately" "breaks" "module").phantom_type
      = PhantomType.whileTrueBreak ∨
     (PhantomLoop.mk 1 .whileTrueBreak (getCodeSnippet ["w"] 1) "HIGH"
        "Loop claims infinity but breaks immediately" "breaks" "module").phantom_type
      = PhantomType.whileTrueReturn ∨
     (PhantomLoop.mk 1 .whileTrueBreak (getCodeSnippet ["w"] 1) "HIGH"
        "Loop claims infinity but breaks immediately" "breaks" "module").phantom_type
      = PhantomType.whileTrueRaise) ∧
    (PhantomLoop.mk 1 .whileTrueBreak (getCodeSnippet ["w"] 1) "HIGH"
        "Loop claims infinity but breaks immediately" "breaks" "module").phantom_type
      ≠ PhantomType.infiniteIteratorExit :=
  claim_C10_phantom_tags.1
    ⟨some ⟨[.whileStmt (.constant (.boolC true) 1) [.breakStmt 1] [] 1]⟩, ["w"]⟩ _
    (by simp [detect_phantom_loops, phantomVisitStmts, phantomVisitStmt,
      isInfiniteCondition, checkImmediateExit, phantomSeverity])

end DarkMatter
